import Mathlib

/-!
Verification of the tracer-analysis core of `policyengine-api`
(`policyengine_api/services/tracer_analysis_service.py`).

The development shallowly embeds:
  * `_parse_tracer_output` — extraction of a variable's computation subtree
    from an indentation-encoded trace, including its regex match predicate
    and its dynamic-typing behaviour (via a small `PyVal` universe);
  * `prompt_template.format(...)` — deterministic prompt rendering,
    including Python's `str(list)` rendering of the segment;
  * `execute_analysis` / `get_tracer` — the dispatcher, with the external
    collaborators (version map, trace store, analysis cache, generation
    backend) supplied as an environment of opaque keyed lookups.
-/

namespace TracerAnalysis

/-- Whitespace as stripped by Python's `str.strip()` and matched by the
regex class `\s`, restricted to the ASCII range (trace lines are ASCII). -/
def pyIsSpace (c : Char) : Bool :=
  c = ' ' || c = '\t' || c = '\n' || c = '\r' || c = '\x0b' || c = '\x0c'

/-- Identifier characters, the regex class `\w` (ASCII range): used by the
lookahead `(?!\w)` of the match pattern in `_parse_tracer_output`. -/
def pyIsWordChar (c : Char) : Bool :=
  c.isAlphanum || c = '_'

/-- `str.strip()` on the underlying character list: drop whitespace from
both ends. -/
def pyStripL (cs : List Char) : List Char :=
  ((cs.dropWhile pyIsSpace).reverse.dropWhile pyIsSpace).reverse

/-- Python `line.strip()`. -/
def pyStrip (s : String) : String :=
  ⟨pyStripL s.data⟩

/-- The code's indentation measure: `indent = len(line) - len(line.strip())`
(note: this counts leading *and* trailing whitespace). -/
def pyIndent (line : String) : Nat :=
  line.length - (pyStrip line).length

/-- The spec's indentation-depth notion: the count of leading whitespace
characters of a line. -/
def leadingWsCount (s : String) : Nat :=
  (s.data.takeWhile pyIsSpace).length

/-- Consume the literal characters `t` from the front of `cs`
(`re.escape(target_variable)` makes the target a literal in the pattern);
return the remainder on success. -/
def consumeLit : List Char → List Char → Option (List Char)
  | [], cs => some cs
  | _ :: _, [] => Option.none
  | t :: ts, c :: cs => if t = c then consumeLit ts cs else Option.none

/-- The negative lookahead `(?!\w)`: the remainder must not start with an
identifier character. -/
def tokenBoundaryOk : List Char → Bool
  | [] => true
  | c :: _ => ! pyIsWordChar c

/-- Match `target(?!\w)` at exactly this position.  The pattern's tail
`\s*(?:<[^>]*>)?\s*` matches the empty string, so (with no end anchor in
the pattern) it imposes no further constraint on whether a match exists. -/
def matchesAt (t cs : List Char) : Bool :=
  match consumeLit t cs with
  | some rest => tokenBoundaryOk rest
  | Option.none => false

/-- Match `^(\s*)target(?!\w)...` with backtracking over the greedy `(\s*)`:
try the token at every position reachable by skipping whitespace. -/
def matchesFrom (t : List Char) : List Char → Bool
  | [] => matchesAt t []
  | c :: cs => matchesAt t (c :: cs) || (pyIsSpace c && matchesFrom t cs)

/-- `re.match(pattern, line)` truthiness for the pattern
`rf"^(\s*)({re.escape(target_variable)})(?!\w)\s*(?:<[^>]*>)?\s*"`
built in `_parse_tracer_output`. -/
def reMatches (target line : String) : Bool :=
  matchesFrom target.data line.data

/-- A small universe of Python values, enough to express the dynamic typing
of `_parse_tracer_output`'s inputs (the tracer output is parsed from JSON
and need not be a list of strings). -/
inductive PyVal where
  | str (s : String)
  | int (n : Int)
  | bool (b : Bool)
  | pynone
  | list (xs : List PyVal)

/-- `isinstance(x, str)`. -/
def PyVal.isStr : PyVal → Bool
  | .str _ => true
  | _ => false

/-- `isinstance(x, list)`. -/
def PyVal.isList : PyVal → Bool
  | .list _ => true
  | _ => false

/-- Python exceptions that can escape the embedded code, plus the error
modes of the external collaborators. -/
inductive PyErr where
  | typeError
  | attributeError
  | keyError
  | notFound (msg : String)
  | backendError (msg : String)
  deriving DecidableEq

/-- The exception raised by the loop body of `_parse_tracer_output` on a
non-string line: `len(line)` raises `TypeError` for `int`/`bool`/`None`,
while for a `list` the subsequent `line.strip()` raises `AttributeError`. -/
def pyBadLineErr : PyVal → PyErr
  | .list _ => .attributeError
  | _ => .typeError

/-- The loop of `_parse_tracer_output` while `capturing` is true: stop
(Python `break`) at the first line whose indent is ≤ `target_indent`,
otherwise append the line; a non-string line raises. -/
def pyCapture (target_indent : Nat) : List PyVal → Except PyErr (List String)
  | [] => .ok []
  | .str line :: rest =>
      if pyIndent line ≤ target_indent then .ok []
      else (pyCapture target_indent rest).map (fun r => line :: r)
  | .list _ :: _ => .error .attributeError
  | _ :: _ => .error .typeError

/-- The loop of `_parse_tracer_output` while `capturing` is false: skip
lines until the first one matching the pattern, record its indent as
`target_indent` and switch to capturing; a non-string line raises. -/
def pyScan (target_variable : String) : List PyVal → Except PyErr (List String)
  | [] => .ok []
  | .str line :: rest =>
      if reMatches target_variable line then
        (pyCapture (pyIndent line) rest).map (fun r => line :: r)
      else pyScan target_variable rest
  | .list _ :: _ => .error .attributeError
  | _ :: _ => .error .typeError

/-- `TracerAnalysisService._parse_tracer_output`: input validation returns
`[]` unless `target_variable` is a `str` and `tracer_output` a `list`;
then the scan/capture loop runs. -/
def parse_tracer_output (tracer_output target_variable : PyVal) :
    Except PyErr (List String) :=
  match target_variable, tracer_output with
  | .str t, .list lines => pyScan t lines
  | _, _ => .ok []

/-- The constant `anthropic.HUMAN_PROMPT` from the Anthropic SDK,
interpolated at the head of `prompt_template`. -/
def HUMAN_PROMPT : String :=
  "\n\nHuman:"

/-- A single-quote character (kept out of string literals). -/
def sq : String :=
  String.singleton (Char.ofNat 39)

/-- Lower-case hexadecimal digit, for Python's `\xhh` escapes. -/
def pyHexDigit (n : Nat) : Char :=
  if n < 10 then Char.ofNat (48 + n) else Char.ofNat (87 + n)

/-- One character of Python's `repr` of a `str`, given the chosen quote
character `q`: escape backslash, the quote, newline, carriage return, tab,
and other control characters as `\xhh`; other characters pass through. -/
def pyStrReprChar (q c : Char) : String :=
  if c = Char.ofNat 92 then "\\\\"
  else if c = q then "\\" ++ String.singleton q
  else if c = Char.ofNat 10 then "\\n"
  else if c = Char.ofNat 13 then "\\r"
  else if c = Char.ofNat 9 then "\\t"
  else if c.toNat < 32 || c.toNat == 127 then
    "\\x" ++ String.singleton (pyHexDigit (c.toNat / 16))
          ++ String.singleton (pyHexDigit (c.toNat % 16))
  else String.singleton c

/-- Python's `repr` of a `str` (ASCII fragment): single quotes by default,
double quotes when the string contains a single quote but no double
quote. -/
def pyStrRepr (s : String) : String :=
  let q : Char :=
    if s.data.contains (Char.ofNat 39) && ! s.data.contains (Char.ofNat 34)
    then Char.ofNat 34 else Char.ofNat 39
  String.singleton q ++ String.join (s.data.map (pyStrReprChar q))
    ++ String.singleton q

/-- Python's `str` of a `list[str]`, which is how `{tracer_segment}` is
rendered by `str.format`: `repr` of the elements, comma-space-separated,
in square brackets. -/
def pyListRepr (xs : List String) : String :=
  "[" ++ String.intercalate ", " (xs.map pyStrRepr) ++ "]"

/-- `prompt_template.format(variable=variable, tracer_segment=tracer_segment)`:
the fixed template text of `TracerAnalysisService.prompt_template` with the
two placeholders substituted (`{variable}` occurs twice, `{tracer_segment}`
once; the segment is a Python list and is rendered via `str`). -/
def prompt_render (var : String) (tracer_segment : List String) : String :=
  HUMAN_PROMPT
  ++ " You are an AI assistant explaining policy calculations. \n  The user has run a simulation for the variable "
  ++ sq ++ var ++ sq
  ++ ".\n  Here" ++ sq ++ "s the tracer output:\n  "
  ++ pyListRepr tracer_segment
  ++ "\n      \n  Please explain this result in clear, factual terms. Your explanation should:\n  1. Briefly describe what "
  ++ var
  ++ " is.\n  2. Explain the main factors that led to this result.\n  3. Mention any key thresholds or rules that affected the calculation.\n  4. If relevant, suggest how changes in input might affect this result.\n      \n  Provide only factual explanations of the policy mechanics. Do not include commentary, opinions, quotes, or phrases like \"Certainly!\" or \"Here"
  ++ sq
  ++ "s an explanation.\" The response will be rendered as markdown, so preface $ with \\."

/-- Modelled from the spec: the external collaborators of the dispatcher,
which are repository code outside this service file
(`COUNTRY_PACKAGE_VERSIONS`, `local_database`, and the
`AIAnalysisService` methods `get_existing_analysis` and
`trigger_ai_analysis`).  Per the spec they are: a version resolver
`country_id -> api_version` that may fail with an unknown-country
condition; a trace store keyed by the composite
`(country_id, household_id, policy_id, api_version)` returning the
JSON-decoded tracer output or absence; an exact-string-keyed analysis
cache `prompt -> optional string`; and a generation backend
`prompt -> lazy sequence of text chunks` that may fail. -/
structure Env where
  country_package_versions : String → Option String
  tracer_store : String → String → String → String → Option PyVal
  existing_analysis : String → Option String
  ai_analysis : String → Except PyErr (List String)

/-- The `Literal["static", "streaming"]` return-mode tag. -/
inductive Mode where
  | static
  | streaming
  deriving DecidableEq

/-- The first component of `execute_analysis`'s result: a complete string
(cache hit) or a stream of chunks (fresh generation). -/
inductive Content where
  | text (s : String)
  | stream (chunks : List String)

/-- `TracerAnalysisService.get_tracer`: look the row up in the trace store;
if no row, raise `NotFound("No household simulation tracer found")`.  The
`except` clause prints and re-raises the exception unchanged. -/
def get_tracer (env : Env)
    (country_id household_id policy_id api_version : String) :
    Except PyErr PyVal :=
  match env.tracer_store country_id household_id policy_id api_version with
  | Option.none => .error (.notFound "No household simulation tracer found")
  | some row => .ok row

/-- The observable outcome of one `execute_analysis` call: the returned
value or exception, plus how many times the analysis cache and the
generation backend were invoked. -/
structure DispatchResult where
  result : Except PyErr (Content × Mode)
  cache_lookups : Nat
  backend_calls : Nat

/-- `TracerAnalysisService.execute_analysis`: resolve the api version
(`KeyError` on unknown country), fetch the tracer (exceptions re-raised
unchanged), parse the segment (exceptions logged and re-raised), render
the prompt, consult the cache — on a hit return the cached text with mode
`"static"`; otherwise invoke the generation backend and return its stream
with mode `"streaming"`, re-raising backend failures. -/
def execute_analysis (env : Env)
    (country_id household_id policy_id var : String) : DispatchResult :=
  match env.country_package_versions country_id with
  | Option.none => ⟨.error .keyError, 0, 0⟩
  | some api_version =>
    match get_tracer env country_id household_id policy_id api_version with
    | .error e => ⟨.error e, 0, 0⟩
    | .ok tracer =>
      match parse_tracer_output tracer (.str var) with
      | .error e => ⟨.error e, 0, 0⟩
      | .ok tracer_segment =>
        let prompt := prompt_render var tracer_segment
        match env.existing_analysis prompt with
        | some existing_analysis => ⟨.ok (.text existing_analysis, .static), 1, 0⟩
        | Option.none =>
          match env.ai_analysis prompt with
          | .ok analysis => ⟨.ok (.stream analysis, .streaming), 1, 1⟩
          | .error e => ⟨.error e, 1, 1⟩

/-- Split a character list at its first `>` (the regex fragment `[^>]*>`),
returning what follows; fails when no `>` occurs. -/
def splitAtGt : List Char → Option (List Char)
  | [] => Option.none
  | c :: cs => if c = '>' then some cs else splitAtGt cs

/-- Modelled from the spec's wording of the match rule, read with an end
anchor: after the target token, only whitespace, at most one bracketed
`<...>` group, and trailing whitespace may remain — nothing else. -/
def specTailOk (cs : List Char) : Bool :=
  match cs.dropWhile pyIsSpace with
  | [] => true
  | c :: cs2 =>
      if c = '<' then
        match splitAtGt cs2 with
        | some rest => (rest.dropWhile pyIsSpace).isEmpty
        | Option.none => false
      else false

/-- Modelled from the spec's wording of the whole match predicate ("…
optionally followed by trailing whitespace and nothing else"): after
stripping leading whitespace the line must be exactly the target as a
whole token, optional whitespace, an optional bracketed group, and
optional trailing whitespace. -/
def specFullMatch (target line : String) : Bool :=
  match consumeLit target.data (line.data.dropWhile pyIsSpace) with
  | some rest => tokenBoundaryOk rest && specTailOk rest
  | Option.none => false

/-- A concrete environment whose cache contains every prompt (used to
exercise the cache-hit path). -/
def envCacheHit : Env :=
  ⟨fun _ => some "1.0.0",
   fun _ _ _ _ => some (.list [.str "value1"]),
   fun _ => some "cached analysis",
   fun _ => .ok []⟩

/-- A concrete environment whose trace store is empty (used to exercise
the not-found path). -/
def envNoTrace : Env :=
  ⟨fun _ => some "1.0.0",
   fun _ _ _ _ => Option.none,
   fun _ => some "cached analysis",
   fun _ => .ok []⟩

/-! ### Helper lemmas about the match predicate -/

theorem consumeLit_some_iff (t : List Char) :
    ∀ (cs rest : List Char), consumeLit t cs = some rest ↔ cs = t ++ rest := by
  induction t with
  | nil =>
      intro cs rest
      simp [consumeLit]
  | cons a ts ih =>
      intro cs rest
      cases cs with
      | nil => simp [consumeLit]
      | cons c cs' =>
          by_cases h : a = c
          · subst h
            simp [consumeLit, ih]
          · simp [consumeLit, h, Ne.symm h]

theorem matchesAt_iff (t cs : List Char) :
    matchesAt t cs = true ↔
      ∃ rest, cs = t ++ rest ∧ tokenBoundaryOk rest = true := by
  unfold matchesAt
  cases h : consumeLit t cs with
  | none =>
      simp only [Bool.false_eq_true, false_iff]
      rintro ⟨rest, hcs, -⟩
      rw [(consumeLit_some_iff t cs rest).mpr hcs] at h
      exact Option.noConfusion h
  | some r =>
      constructor
      · intro hb
        exact ⟨r, (consumeLit_some_iff t cs r).mp h, hb⟩
      · rintro ⟨rest, hcs, hb⟩
        rw [(consumeLit_some_iff t cs rest).mpr hcs] at h
        cases h
        exact hb

theorem matchesFrom_iff (t : List Char) :
    ∀ cs : List Char, matchesFrom t cs = true ↔
      ∃ ws rest, cs = ws ++ t ++ rest
        ∧ (∀ c ∈ ws, pyIsSpace c = true)
        ∧ tokenBoundaryOk rest = true := by
  intro cs
  induction cs with
  | nil =>
      rw [matchesFrom, matchesAt_iff]
      constructor
      · rintro ⟨rest, hcs, hb⟩
        exact ⟨[], rest, by simpa using hcs, by simp, hb⟩
      · rintro ⟨ws, rest, hcs, -, hb⟩
        have h3 : ws = [] ∧ t = [] ∧ rest = [] := by
          simpa [List.append_assoc] using hcs.symm
        exact ⟨rest, by simp [h3.2.1, h3.2.2], hb⟩
  | cons c cs' ih =>
      rw [matchesFrom, Bool.or_eq_true, Bool.and_eq_true, matchesAt_iff]
      constructor
      · rintro (⟨rest, hcs, hb⟩ | ⟨hsp, hrec⟩)
        · exact ⟨[], rest, by simpa using hcs, by simp, hb⟩
        · rcases ih.mp hrec with ⟨ws, rest, hcs, hws, hb⟩
          refine ⟨c :: ws, rest, by simp [hcs], ?_, hb⟩
          intro x hx
          rcases List.mem_cons.mp hx with h | h
          · subst h; exact hsp
          · exact hws x h
      · rintro ⟨ws, rest, hcs, hws, hb⟩
        cases ws with
        | nil =>
            exact Or.inl ⟨rest, by simpa using hcs, hb⟩
        | cons w ws' =>
            simp only [List.cons_append, List.cons.injEq] at hcs
            refine Or.inr ⟨hcs.1 ▸ hws w (List.mem_cons_self w ws'), ?_⟩
            exact ih.mpr ⟨ws', rest, hcs.2, fun x hx => hws x (List.mem_cons_of_mem w hx), hb⟩

/-! ### Helper lemmas about the scan/capture loop -/

theorem pyCapture_ok_mem (ti : Nat) :
    ∀ (lines : List PyVal) (seg : List String),
      pyCapture ti lines = .ok seg → ∀ x ∈ seg, ti < pyIndent x := by
  intro lines
  induction lines with
  | nil =>
      intro seg h x hx
      simp only [pyCapture, Except.ok.injEq] at h
      subst h
      exact absurd hx (List.not_mem_nil x)
  | cons hd tl ih =>
      intro seg h x hx
      cases hd with
      | str line =>
          simp only [pyCapture] at h
          by_cases hle : pyIndent line ≤ ti
          · rw [if_pos hle] at h
            cases h
            exact absurd hx (List.not_mem_nil x)
          · rw [if_neg hle] at h
            cases hr : pyCapture ti tl with
            | error e => rw [hr] at h; exact Except.noConfusion h
            | ok r =>
                rw [hr] at h
                simp only [Except.map, Except.ok.injEq] at h
                subst h
                rcases List.mem_cons.mp hx with hx | hx
                · subst hx; exact Nat.lt_of_not_le hle
                · exact ih r hr x hx
      | list xs => exact Except.noConfusion h
      | int n => exact Except.noConfusion h
      | bool b => exact Except.noConfusion h
      | pynone => exact Except.noConfusion h

theorem pyScan_ok_tail (t : String) :
    ∀ (lines : List PyVal) (seg : List String),
      pyScan t lines = .ok seg →
      ∀ (l : String) (ls : List String), seg = l :: ls →
      ∀ x ∈ ls, pyIndent l < pyIndent x := by
  intro lines
  induction lines with
  | nil =>
      intro seg h l ls hseg
      simp only [pyScan, Except.ok.injEq] at h
      subst h
      exact absurd hseg (List.cons_ne_nil l ls).symm
  | cons hd tl ih =>
      intro seg h l ls hseg x hx
      cases hd with
      | str line =>
          simp only [pyScan] at h
          by_cases hm : reMatches t line = true
          · rw [if_pos hm] at h
            cases hr : pyCapture (pyIndent line) tl with
            | error e => rw [hr] at h; exact Except.noConfusion h
            | ok r =>
                rw [hr] at h
                simp only [Except.map, Except.ok.injEq] at h
                rw [← h] at hseg
                cases hseg
                exact pyCapture_ok_mem (pyIndent l) tl ls hr x hx
          · rw [if_neg hm] at h
            exact ih seg h l ls hseg x hx
      | list xs => exact Except.noConfusion h
      | int n => exact Except.noConfusion h
      | bool b => exact Except.noConfusion h
      | pynone => exact Except.noConfusion h

theorem pyScan_skip (t : String) :
    ∀ (pre : List String) (xs : List PyVal),
      (∀ l ∈ pre, reMatches t l = false) →
      pyScan t (pre.map PyVal.str ++ xs) = pyScan t xs := by
  intro pre
  induction pre with
  | nil => intro xs _; rfl
  | cons hd tl ih =>
      intro xs hpre
      have hhd : reMatches t hd = false := hpre hd (List.mem_cons_self hd tl)
      simp only [List.map_cons, List.cons_append, pyScan, hhd, Bool.false_eq_true,
        if_false]
      exact ih xs fun l hl => hpre l (List.mem_cons_of_mem hd hl)

/-! ### The claims -/

/-- C1: for the trace `["value1", "  value1.1", "  value1.2",
"    value1.2.1", "value2"]` and target `"value1"`, the extractor returns
exactly the first four lines, stopping before `"value2"` because its depth
0 is not greater than the target depth 0. -/
theorem C1_end_to_end_example :
    parse_tracer_output
      (.list [.str "value1", .str "  value1.1", .str "  value1.2",
              .str "    value1.2.1", .str "value2"])
      (.str "value1")
      = .ok ["value1", "  value1.1", "  value1.2", "    value1.2.1"]
    ∧ ¬ pyIndent "value1" < pyIndent "value2" :=
  ⟨rfl, by decide⟩

/-- C2 (counterexample): with depth read as the count of *leading*
whitespace characters, the claimed invariant fails: on the trace
`["  a", " b  "]` with target `"a"` the extractor returns both lines, yet
the second line's leading-whitespace depth (1) is not strictly greater
than the first line's (2) — the code measures
`len(line) - len(line.strip())`, which also counts trailing whitespace. -/
theorem C2_counterexample :
    parse_tracer_output (.list [.str "  a", .str " b  "]) (.str "a")
      = .ok ["  a", " b  "]
    ∧ ¬ leadingWsCount "  a" < leadingWsCount " b  " :=
  ⟨rfl, by decide⟩

/-- C2 (amended): with indentation depth measured as the code measures it
(`len(line) - len(line.strip())`, i.e. leading plus trailing whitespace),
every non-empty extracted segment starts with a line of minimum depth and
every subsequent segment line has strictly greater depth than it. -/
theorem C2_amended_segment_depths (tracer : List PyVal) (t : String)
    (seg : List String)
    (h : parse_tracer_output (.list tracer) (.str t) = Except.ok seg)
    (l : String) (ls : List String) (hseg : seg = l :: ls) :
    (∀ x ∈ seg, pyIndent l ≤ pyIndent x) ∧ ∀ x ∈ ls, pyIndent l < pyIndent x := by
  have hscan : pyScan t tracer = .ok seg := h
  have htail := pyScan_ok_tail t tracer seg hscan l ls hseg
  refine ⟨?_, htail⟩
  intro x hx
  rw [hseg] at hx
  rcases List.mem_cons.mp hx with hx | hx
  · exact hx ▸ Nat.le_refl _
  · exact Nat.le_of_lt (htail x hx)

/-- Witness for C2 (amended) at the concrete trace `["a", "  b"]`. -/
theorem C2_amended_witness :
    (∀ x ∈ ["a", "  b"], pyIndent "a" ≤ pyIndent x)
    ∧ ∀ x ∈ ["  b"], pyIndent "a" < pyIndent x :=
  C2_amended_segment_depths [.str "a", .str "  b"] "a" ["a", "  b"] rfl
    "a" ["  b"] rfl

/-- C3: whenever the version resolves, the trace record exists, parsing
succeeds, and the rendered prompt is present in the analysis cache, the
call returns the cached text with mode `static` and the generation backend
is never invoked (zero backend calls). -/
theorem C3_cache_hit_static (env : Env) (c h p v ver : String)
    (tracer : PyVal) (seg : List String) (txt : String)
    (hver : env.country_package_versions c = some ver)
    (htr : env.tracer_store c h p ver = some tracer)
    (hparse : parse_tracer_output tracer (.str v) = .ok seg)
    (hcache : env.existing_analysis (prompt_render v seg) = some txt) :
    execute_analysis env c h p v
      = ⟨.ok (.text txt, .static), 1, 0⟩ := by
  simp only [execute_analysis, get_tracer, hver, htr, hparse, hcache]

/-- Witness for C3 in a concrete environment whose cache holds every
prompt. -/
theorem C3_cache_hit_witness :
    execute_analysis envCacheHit "us" "71" "2" "value1"
      = ⟨.ok (.text "cached analysis", .static), 1, 0⟩ :=
  C3_cache_hit_static envCacheHit "us" "71" "2" "value1" "1.0.0"
    (.list [.str "value1"]) ["value1"] "cached analysis" rfl rfl rfl rfl

/-- C4 (counterexample): the pattern has no end anchor, so a line whose
stripped text continues with arbitrary non-bracket content after the
target token still matches and is captured — contradicting the claimed
"… optionally followed by trailing whitespace and nothing else". -/
theorem C4_counterexample :
    reMatches "value1" "value1 garbage" = true
    ∧ specFullMatch "value1" "value1 garbage" = false
    ∧ parse_tracer_output (.list [.str "value1 garbage"]) (.str "value1")
        = .ok ["value1 garbage"] :=
  ⟨by decide, by decide, rfl⟩

/-- C4 (amended): a line matches exactly when, after some prefix of
whitespace, it continues with the target as a whole token not followed by
an identifier character — any remaining tail is allowed (the match is a
prefix match; the optional whitespace/bracket group constrains nothing).
In particular `"value1 <42>"` matches `"value1"` and is captured
identically to the unannotated `"value1"`, and `"rate_adjusted"` does not
match `"rate"`. -/
theorem C4_amended_match_rule :
    (∀ t line : String, reMatches t line = true ↔
        ∃ ws rest : List Char, line.data = ws ++ t.data ++ rest
          ∧ (∀ c ∈ ws, pyIsSpace c = true)
          ∧ tokenBoundaryOk rest = true)
    ∧ reMatches "value1" "value1 <42>" = true
    ∧ parse_tracer_output (.list [.str "value1 <42>"]) (.str "value1")
        = .ok ["value1 <42>"]
    ∧ parse_tracer_output (.list [.str "value1"]) (.str "value1")
        = .ok ["value1"]
    ∧ reMatches "rate" "rate_adjusted" = false :=
  ⟨fun t line => matchesFrom_iff t.data line.data, by decide, rfl, rfl, by decide⟩

/-- C5 (counterexample): with depth read as the count of *leading*
whitespace characters, the claim fails.  On the trace `["a", "b  "]` with
target `"a"`, the target matches exactly once and the next line is at
equal leading-whitespace depth (0), so no deeper line follows before the
next line at equal-or-lesser depth — yet the extractor returns both lines,
because the code's `len(line) - len(line.strip())` measure gives `"b  "`
indent 2 > 0 (it counts trailing whitespace). -/
theorem C5_counterexample :
    reMatches "a" "a" = true
    ∧ reMatches "a" "b  " = false
    ∧ leadingWsCount "b  " ≤ leadingWsCount "a"
    ∧ parse_tracer_output (.list [.str "a", .str "b  "]) (.str "a")
        = .ok ["a", "b  "] :=
  ⟨by decide, by decide, by decide, rfl⟩

/-- C5 (amended): with depth measured as the code measures it
(`len(line) - len(line.strip())`, i.e. leading plus trailing whitespace),
when the target matches exactly one line of the trace and the line right
after it (if any) is not deeper under that measure — so no deeper lines
follow before the next line at equal-or-lesser depth — the extractor
returns exactly that one matching line. -/
theorem C5_unique_shallow_occurrence (t m : String) (pre post : List String)
    (hpre : ∀ l ∈ pre, reMatches t l = false)
    (hm : reMatches t m = true)
    (hpost : ∀ l ∈ post, reMatches t l = false)
    (hshallow : post.takeWhile (fun l => decide (pyIndent m < pyIndent l)) = []) :
    parse_tracer_output (.list ((pre ++ m :: post).map PyVal.str)) (.str t)
      = .ok [m] := by
  show pyScan t ((pre ++ m :: post).map PyVal.str) = .ok [m]
  rw [List.map_append, pyScan_skip t pre _ hpre]
  simp only [List.map_cons, pyScan, hm, if_true]
  have hcap : pyCapture (pyIndent m) (post.map PyVal.str) = .ok [] := by
    cases post with
    | nil => rfl
    | cons q qs =>
        have hq : ¬ pyIndent m < pyIndent q := by
          intro hlt
          simp [List.takeWhile_cons, hlt] at hshallow
        simp only [List.map_cons, pyCapture]
        rw [if_pos (Nat.le_of_not_lt hq)]
  rw [hcap]
  rfl

/-- Witness for C5 on the trace `["x", "value1", "y"]`. -/
theorem C5_witness :
    parse_tracer_output (.list ((["x"] ++ "value1" :: ["y"]).map PyVal.str))
      (.str "value1") = .ok ["value1"] :=
  C5_unique_shallow_occurrence "value1" "value1" ["x"] ["y"]
    (by decide) (by decide) (by decide) (by decide)

/-- C6: when the version resolves but the trace store has no record under
the composite key, the call fails with the `NotFound` error, unchanged,
and neither the analysis cache nor the generation backend is consulted
(zero lookups, zero backend calls). -/
theorem C6_trace_not_found (env : Env) (c h p v ver : String)
    (hver : env.country_package_versions c = some ver)
    (htr : env.tracer_store c h p ver = Option.none) :
    execute_analysis env c h p v
      = ⟨.error (.notFound "No household simulation tracer found"), 0, 0⟩ := by
  simp only [execute_analysis, get_tracer, hver, htr]

/-- Witness for C6 in a concrete environment with an empty trace store. -/
theorem C6_trace_not_found_witness :
    execute_analysis envNoTrace "us" "71" "2" "value1"
      = ⟨.error (.notFound "No household simulation tracer found"), 0, 0⟩ :=
  C6_trace_not_found envNoTrace "us" "71" "2" "value1" "1.0.0" rfl rfl

/-- C7: if no line of the trace matches the target under the match
predicate, the extractor returns the empty segment. -/
theorem C7_absent_variable_empty (t : String) (lines : List String)
    (h : ∀ l ∈ lines, reMatches t l = false) :
    parse_tracer_output (.list (lines.map PyVal.str)) (.str t) = .ok [] := by
  show pyScan t (lines.map PyVal.str) = .ok []
  have hskip := pyScan_skip t lines [] h
  simpa using hskip

/-- Witness for C7: `"value3"` is absent from the example trace. -/
theorem C7_absent_variable_witness :
    parse_tracer_output
      (.list (["value1", "  value1.1"].map PyVal.str)) (.str "value3")
      = .ok [] :=
  C7_absent_variable_empty "value3" ["value1", "  value1.1"] (by decide)

/-- C8: when the target is not a string or the trace is not a list, the
extractor returns the empty segment without raising. -/
theorem C8_malformed_input_noop (tracer_output target_variable : PyVal)
    (h : target_variable.isStr = false ∨ tracer_output.isList = false) :
    parse_tracer_output tracer_output target_variable = .ok [] := by
  cases target_variable <;> cases tracer_output <;> try rfl
  rcases h with h | h <;> simp [PyVal.isStr, PyVal.isList] at h

/-- Witness for C8: an integer trace with a string target. -/
theorem C8_malformed_input_witness :
    parse_tracer_output (.int 3) (.str "a") = .ok [] :=
  C8_malformed_input_noop (.int 3) (.str "a") (Or.inr rfl)

/-- C9: prompt rendering is deterministic — identical
(variable, segment) inputs render to identical prompt strings; the
embedding of `prompt_template.format` is a pure function of its two
arguments, with no dependence on time, randomness, or process state. -/
theorem C9_prompt_render_deterministic (v1 v2 : String)
    (s1 s2 : List String) (hv : v1 = v2) (hs : s1 = s2) :
    prompt_render v1 s1 = prompt_render v2 s2 := by
  rw [hv, hs]

/-- Witness for C9 at a concrete (variable, segment) pair. -/
theorem C9_prompt_render_witness :
    prompt_render "value1" ["value1"] = prompt_render "value1" ["value1"] :=
  C9_prompt_render_deterministic "value1" "value1" ["value1"] ["value1"] rfl rfl

/-- C10: the input-validation guard checks only that the outer value is a
list, so a non-string element reached by the scan (here: the first
element, with no earlier match) raises (`TypeError`, or `AttributeError`
for a nested list) instead of producing an empty segment. -/
theorem C10_nonstring_element_raises (t : String) (pre : List String)
    (v : PyVal) (rest : List PyVal)
    (hpre : ∀ l ∈ pre, reMatches t l = false)
    (hv : v.isStr = false) :
    parse_tracer_output (.list (pre.map PyVal.str ++ v :: rest)) (.str t)
      = .error (pyBadLineErr v) := by
  show pyScan t (pre.map PyVal.str ++ v :: rest) = .error (pyBadLineErr v)
  rw [pyScan_skip t pre (v :: rest) hpre]
  cases v with
  | str s => simp [PyVal.isStr] at hv
  | list xs => rfl
  | int n => rfl
  | bool b => rfl
  | pynone => rfl

/-- Witness for C10: a trace list whose only element is the integer 42. -/
theorem C10_nonstring_element_witness :
    parse_tracer_output (.list [PyVal.int 42]) (.str "x")
      = .error .typeError :=
  C10_nonstring_element_raises "x" [] (.int 42) []
    (fun l hl => absurd hl (List.not_mem_nil l)) rfl

end TracerAnalysis
